import Mathlib

/-!
Verification of the happypandax connection-handling and request-dispatch
layer (`src/happypanda/server/core/server.py`) against its specification.

The dispatch code (`ClientHandler.parse`, `ClientHandler.advance` and the
validation helpers) is embedded directly from the source.  The modules
`happypanda.common.constants` / `exceptions` / `utils` / `message` are part
of the repository but not present under `src/`; the few pieces of them the
dispatch layer touches (the frame delimiter, the JSON decoding entry point,
the `CoreError` error shape and the wire serializations of wait / error /
function-list messages) are modelled from the specification and marked as
such in their doc comments.

Python-specific semantics of the source are preserved: `x in d` on a dict
tests key membership, on a list element equality; `d[k]` on a list with a
string index raises `TypeError`; membership of an unhashable value in a
dict raises `TypeError`; `len` of a dict counts its keys.  Exceptions that
are not `CoreError` escape `ClientHandler.advance` (its `except` clause
only catches `exceptions.CoreError`) and are modelled as an `Outcome.crash`
result.
-/

namespace HappyPanda

/-- JSON values as produced by Python's `json.loads`: the payload language of
the wire protocol.  Objects keep their key order (Python dicts are ordered);
`json.loads` never produces duplicate keys in one object. -/
inductive JVal where
  | null
  | bool (b : Bool)
  | num (n : Int)
  | str (s : String)
  | arr (elems : List JVal)
  | obj (fields : List (String × JVal))

/-- Modelled from the spec: `exceptions.CoreError` carries a `code` and a
`msg` (spec §3 ErrorMessage: `(code: integer, message: string)`). -/
structure CoreError where
  code : Int
  msg : String
  deriving DecidableEq, Repr

/-- Modelled from the spec: the error code of `exceptions.InvalidMessage`
(a `CoreError` subclass raised for protocol violations); the concrete code
value is not under `src/`. -/
def invalidMessageCode : Int := 1

/-- Modelled from the spec: `exceptions.InvalidMessage(where, msg)`, a
`CoreError` whose message describes the violation found at `where`. -/
def invalidMessage (w m : String) : CoreError :=
  ⟨invalidMessageCode, w ++ ": " ++ m⟩

/-- Outcome of a step of the parsing code: either a value, or a raised
`CoreError` (caught at the dispatch boundary), or an uncaught Python
exception such as `TypeError` (escapes the dispatch boundary). -/
inductive PErr where
  | core (e : CoreError)
  | uncaught (kind : String)
  deriving DecidableEq, Repr

/-- Python `str(x)` as used by the error-message `format` calls of the
source, for the scalar values that reach them. -/
def pyStr : JVal → String
  | .null => "None"
  | .bool b => if b then "True" else "False"
  | .num n => toString n
  | .str s => s
  | .arr _ => "<list>"
  | .obj _ => "<dict>"

/-- Python `len(x)` for the containers the validation code measures
(dict: number of keys; list: number of elements). -/
def pyLen : JVal → Nat
  | .arr xs => xs.length
  | .obj kvs => kvs.length
  | _ => 0

/-- Python `x == k` between a decoded JSON value and a string: only equal
strings compare equal. -/
def eqStr (k : String) : JVal → Bool
  | .str s => s == k
  | _ => false

/-- Python `k in x` for a string `k`: key membership for a dict, element
equality for a list, `False` otherwise. -/
def pyContains (j : JVal) (k : String) : Bool :=
  match j with
  | .obj kvs => kvs.any (fun kv => kv.1 == k)
  | .arr xs => xs.any (eqStr k)
  | _ => false

/-- Python iteration `for x in j`: a dict yields its keys in order, a list
its elements. -/
def pyElems : JVal → List JVal
  | .obj kvs => kvs.map (fun kv => JVal.str kv.1)
  | .arr xs => xs
  | _ => []

/-- Python `j[k]` for a string key `k`: dict lookup (first and only binding;
`KeyError` if absent), `TypeError` on any other container. -/
def pySubscript (j : JVal) (k : String) : Except PErr JVal :=
  match j with
  | .obj kvs =>
    match kvs.find? (fun kv => kv.1 == k) with
    | some kv => .ok kv.2
    | none => .error (.uncaught "KeyError")
  | _ => .error (.uncaught "TypeError")

/-- Python `x in keys` where `keys` is a tuple of strings: true exactly when
`x` is a string equal to one of them. -/
def memKeys (keys : List String) : JVal → Bool
  | .str s => keys.contains s
  | _ => false

/-- The context string passed to every validation helper by
`ClientHandler.parse` (`where = "Message parsing"`). -/
def whereMsg : String := "Message parsing"

namespace ClientHandler

/-- `ClientHandler._expect_iterable`: raise `InvalidMessage` unless the
value is a list/dict (Python tuples never occur in decoded JSON). -/
def expect_iterable (w : String) (j : JVal) : Except PErr Unit :=
  match j with
  | .arr _ => .ok ()
  | .obj _ => .ok ()
  | _ => .error (.core (invalidMessage w ("A list/dict was expected, not: " ++ pyStr j)))

/-- `ClientHandler._check_missing`: via `_check_required_key` with
`required_keys := data` and `data := keys`, it first demands `data` be
iterable, then raises on the first required key not contained in `data`. -/
def check_missing (w m : String) (keys : List String) (j : JVal) : Except PErr Unit :=
  match expect_iterable w j with
  | .error e => .error e
  | .ok _ =>
    match keys.find? (fun k => !(pyContains j k)) with
    | some k => .error (.core (invalidMessage w (m ++ " missing '" ++ k ++ "' key")))
    | none => .ok ()

/-- `ClientHandler._check_unknown`: only when `len(data) != len(keys)` does
it scan `data`'s elements (dict: its keys) for one outside `keys`. -/
def check_unknown (w m : String) (keys : List String) (j : JVal) : Except PErr Unit :=
  if pyLen j = keys.length then .ok ()
  else
    match expect_iterable w j with
    | .error e => .error e
    | .ok _ =>
      match (pyElems j).find? (fun x => !(memKeys keys x)) with
      | some x => .error (.core (invalidMessage w (m ++ " contains unknown key '" ++ pyStr x ++ "'")))
      | none => .ok ()

/-- `ClientHandler._check_both`: missing-key check, then unknown-key check. -/
def check_both (w m : String) (keys : List String) (j : JVal) : Except PErr Unit :=
  match check_missing w m keys j with
  | .error e => .error e
  | .ok _ => check_unknown w m keys j

end ClientHandler

/-- One registered server operation: its name (`__name__`), the names the
argument check reads from `__code__.co_varnames` (for the registered
interface functions these are exactly the declared formal parameters — they
have no local variables), and its behaviour when invoked with keyword
arguments: a result message, or a raised `CoreError`. -/
structure Op where
  name : String
  varnames : List String
  run : List (String × JVal) → Except CoreError JVal

/-- `ClientHandler.api` maps names to operations; lookup by name. -/
abbrev Api := List Op

/-- Python `function_name in self.api` followed by `self.api[function_name]`:
an unhashable index (list/dict) raises `TypeError`; other non-strings are
hashable but match no registered name. -/
def apiFind (api : Api) (fn : JVal) : Except PErr (Option Op) :=
  match fn with
  | .str s => .ok (api.find? (fun op => op.name == s))
  | .arr _ => .error (.uncaught "TypeError")
  | .obj _ => .error (.uncaught "TypeError")
  | _ => .ok none

/-- One element of the list `ClientHandler.parse` returns: the resolved
operation paired with the keyword arguments built from the call object. -/
structure Call where
  op : Op
  args : List (String × JVal)

/-- The keys of a decoded JSON object (iteration order). -/
def objKeys : JVal → List String
  | .obj kvs => kvs.map (fun kv => kv.1)
  | _ => []

/-- Dict lookup used for the kwargs comprehension `{x: f[x] for x in func_args}`;
every looked-up key is known to be present. -/
def objLookup (j : JVal) (k : String) : JVal :=
  match j with
  | .obj kvs =>
    match kvs.find? (fun kv => kv.1 == k) with
    | some kv => kv.2
    | none => .null
  | _ => .null

namespace ClientHandler

/-- The body of `ClientHandler.parse`'s per-call loop: check the required
`fname` key, resolve the name against `self.api`, check every remaining key
against the operation's `co_varnames`, and build the `(function, kwargs)`
pair. -/
def checkEntry (api : Api) (f : JVal) : Except PErr Call :=
  match check_missing whereMsg "Function message" ["fname"] f with
  | .error e => .error e
  | .ok _ =>
    match pySubscript f "fname" with
    | .error e => .error e
    | .ok fn =>
      match apiFind api fn with
      | .error e => .error e
      | .ok none =>
        .error (.core (invalidMessage whereMsg ("Function not found: '" ++ pyStr fn ++ "'")))
      | .ok (some op) =>
        let argKeys := (objKeys f).filter (fun a => a != "fname")
        match argKeys.find? (fun a => !(op.varnames.contains a)) with
        | some a =>
          .error (.core (invalidMessage whereMsg
            ("Unexpected argument in function '" ++ pyStr fn ++ "': '" ++ a ++ "'")))
        | none => .ok ⟨op, argKeys.map (fun a => (a, objLookup f a))⟩

/-- The loop `for f in msg_data` of `ClientHandler.parse`: validate each
call object in order, stopping at the first raised exception. -/
def parseEntries (api : Api) : List JVal → Except PErr (List Call)
  | [] => .ok []
  | f :: rest =>
    match checkEntry api f with
    | .error e => .error e
    | .ok c =>
      match parseEntries api rest with
      | .error e => .error e
      | .ok cs => .ok (c :: cs)

end ClientHandler

/-- Modelled from the spec: `constants.postfix`, the fixed delimiter bytes
terminating every wire message; the concrete byte values are not under
`src/` (any fixed non-empty sequence; `<EOF>` shown here). -/
def delim : List Nat := [60, 69, 79, 70, 62]

/-- Modelled from the spec: the delimiter-stripping step of
`utils.convert_to_json` — "the receiver accumulates bytes until the
buffer's tail equals the delimiter, then strips it before decoding". -/
def stripDelim (buffer : List Nat) : List Nat :=
  if delim.isSuffixOf buffer then buffer.take (buffer.length - delim.length)
  else buffer

/-- Modelled from the spec: the JSON-decoding step of
`utils.convert_to_json`; an undecodable body raises a `CoreError` caught at
the dispatch boundary.  The concrete JSON text parser is abstracted as
`jsonParse`. -/
def decodeBody (jsonParse : List Nat → Option JVal) (body : List Nat) : Except PErr JVal :=
  match jsonParse body with
  | some j => .ok j
  | none => .error (.core (invalidMessage whereMsg "Malformed JSON"))

/-- Modelled from the spec: `utils.convert_to_json` — strip the delimiter
from the buffer's tail, then decode the remaining serialized body. -/
def convert_to_json (jsonParse : List Nat → Option JVal) (data : List Nat) : Except PErr JVal :=
  decodeBody jsonParse (stripDelim data)

namespace ClientHandler

/-- `ClientHandler.parse`: decode the buffer, check the root envelope's
required and unknown keys against `('name', 'data')`, subscript `'data'`,
demand a list, and validate each call object in order. -/
def parse (api : Api) (jsonParse : List Nat → Option JVal) (data : List Nat) :
    Except PErr (List Call) :=
  match convert_to_json jsonParse data with
  | .error e => .error e
  | .ok j =>
    match check_both whereMsg "JSON dict" ["name", "data"] j with
    | .error e => .error e
    | .ok _ =>
      match pySubscript j "data" with
      | .error e => .error e
      | .ok (.arr entries) => parseEntries api entries
      | .ok _ =>
        .error (.core (invalidMessage whereMsg "No list of function objects found in 'data'"))

end ClientHandler

/-- Modelled from the spec: the wire serialization of `message.Message("wait")`
(`{"type": "wait"}`, spec §6 Wait schema). -/
def waitMsg : JVal := .obj [("type", .str "wait")]

/-- Modelled from the spec: the wire serialization of
`message.Error(code, msg)` (`{"type": "error", "code": .., "message": ..}`,
spec §6 Error schema). -/
def errorMsg (e : CoreError) : JVal :=
  .obj [("type", .str "error"), ("code", .num e.code), ("message", .str e.msg)]

/-- Modelled from the spec: the wire serialization of a
`message.List("function", message.Function)` holding one
`message.Function(name, data)` per invoked call (spec §6 Response schema). -/
def functionMsg (results : List (String × JVal)) : JVal :=
  .obj [("type", .str "function"),
        ("data", .arr (results.map (fun r => .obj [("fname", .str r.1), ("data", r.2)])))]

/-- The result of one dispatch cycle: the messages sent to the client and
the names of the operations invoked, in order — or an uncaught Python
exception escaping `ClientHandler.advance` (whose `except` clause catches
only `exceptions.CoreError`). -/
inductive Outcome where
  | sent (msgs : List JVal) (invoked : List String)
  | crash (kind : String)

/-- The operations invoked during a dispatch cycle (none if it crashed
before any invocation). -/
def Outcome.invoked : Outcome → List String
  | .sent _ inv => inv
  | .crash _ => []

namespace ClientHandler

/-- The invocation loop of `ClientHandler.advance`: run each parsed call in
order, accumulating `(func.__name__, result)` pairs; a call raising a
`CoreError` aborts the loop, discarding the results accumulated so far.
Also records the names of the operations actually invoked, in order. -/
def runCalls : List Call → Except (CoreError × List String) (List (String × JVal) × List String)
  | [] => .ok ([], [])
  | c :: rest =>
    match c.op.run c.args with
    | .error e => .error (e, [c.op.name])
    | .ok m =>
      match runCalls rest with
      | .error (e, inv) => .error (e, c.op.name :: inv)
      | .ok (results, inv) => .ok ((c.op.name, m) :: results, c.op.name :: inv)

/-- `ClientHandler.advance`: if `constants.server_ready` is unset, send the
wait message (`on_wait`); otherwise parse the buffer and invoke the calls,
sending the serialized function list on success and the serialized error
(`on_error`) when a `CoreError` is raised.  Exceptions other than
`CoreError` are not caught and escape as a crash of the handler task. -/
def advance (api : Api) (serverReady : Bool) (jsonParse : List Nat → Option JVal)
    (buffer : List Nat) : Outcome :=
  if serverReady then
    match parse api jsonParse buffer with
    | .ok calls =>
      match runCalls calls with
      | .ok (results, inv) => .sent [functionMsg results] inv
      | .error (e, inv) => .sent [errorMsg e] inv
    | .error (.core e) => .sent [errorMsg e] []
    | .error (.uncaught k) => .crash k
  else .sent [waitMsg] []

end ClientHandler

/-- Modelled from the spec: the constant success payload returned by every
placeholder gallery operation (`message.Message("works")`). -/
def messageWorks : JVal := .str "works"

/-- `interface.add_gallery` (src/happypanda/server/interface/gallery.py):
declared parameters `galleries`, `paths`; returns the constant payload. -/
def add_gallery : Op := ⟨"add_gallery", ["galleries", "paths"], fun _ => .ok messageWorks⟩

/-- `interface.fetch_galleries`: declared parameter `gallery_ids`. -/
def fetch_galleries : Op := ⟨"fetch_galleries", ["gallery_ids"], fun _ => .ok messageWorks⟩

/-- `interface.gallery_view`: declared parameters `page`, `gallery_limit`,
`search_filter`, `list_id`, `gallery_filter`. -/
def gallery_view : Op :=
  ⟨"gallery_view", ["page", "gallery_limit", "search_filter", "list_id", "gallery_filter"],
   fun _ => .ok messageWorks⟩

/-- `interface.scan_gallery`: declared parameters `paths`, `add_after`,
`ignore_exist`. -/
def scan_gallery : Op :=
  ⟨"scan_gallery", ["paths", "add_after", "ignore_exist"], fun _ => .ok messageWorks⟩

namespace ClientHandler

/-- `ClientHandler.api`: the registry built once from the public functions
of the `interface` module (`getmembers` returns them sorted by name), with
the `_special_functions` denylist (`interactive`) excluded. -/
def api : Api := [add_gallery, fetch_galleries, gallery_view, scan_gallery]

end ClientHandler

/-- The payload of a successful invocation (total accessor used to state
the all-calls-succeed theorem). -/
def okValue : Except CoreError JVal → JVal
  | .ok m => m
  | .error _ => .null

namespace ClientHandler

lemma runCalls_all_ok (calls : List Call)
    (hok : ∀ c ∈ calls, (c.op.run c.args).isOk = true) :
    runCalls calls =
      .ok (calls.map (fun c => (c.op.name, okValue (c.op.run c.args))),
           calls.map (fun c => c.op.name)) := by
  induction calls with
  | nil => rfl
  | cons c rest ih =>
    have hc := hok c (List.mem_cons_self c rest)
    have hrest : ∀ c' ∈ rest, (c'.op.run c'.args).isOk = true :=
      fun c' hc' => hok c' (List.mem_cons_of_mem c hc')
    cases hm : c.op.run c.args with
    | error e => rw [hm] at hc; simp [Except.isOk, Except.toBool] at hc
    | ok m =>
      unfold runCalls
      rw [hm, ih hrest]
      simp [okValue, hm]

lemma runCalls_error_after_ok (pre : List Call) (c : Call) (post : List Call) (e : CoreError)
    (hpre : ∀ c' ∈ pre, (c'.op.run c'.args).isOk = true)
    (hc : c.op.run c.args = .error e) :
    runCalls (pre ++ c :: post) =
      .error (e, pre.map (fun c' => c'.op.name) ++ [c.op.name]) := by
  induction pre with
  | nil =>
    simp only [List.nil_append, List.map_nil]
    unfold runCalls
    rw [hc]
  | cons a pre ih =>
    have ha := hpre a (List.mem_cons_self a pre)
    have hrest : ∀ c' ∈ pre, (c'.op.run c'.args).isOk = true :=
      fun c' hc' => hpre c' (List.mem_cons_of_mem a hc')
    cases hm : a.op.run a.args with
    | error e' => rw [hm] at ha; simp [Except.isOk, Except.toBool] at ha
    | ok m =>
      show runCalls (a :: (pre ++ c :: post)) = _
      unfold runCalls
      rw [hm, ih hrest]
      rfl

lemma parseEntries_error_after_ok (api : Api) (pre : List JVal) (f : JVal) (rest : List JVal)
    (pe : PErr) (hpre : ∀ g ∈ pre, (checkEntry api g).isOk = true)
    (hf : checkEntry api f = .error pe) :
    parseEntries api (pre ++ f :: rest) = .error pe := by
  induction pre with
  | nil =>
    simp only [List.nil_append]
    unfold parseEntries
    rw [hf]
  | cons g pre ih =>
    have hg := hpre g (List.mem_cons_self g pre)
    have hrest : ∀ g' ∈ pre, (checkEntry api g').isOk = true :=
      fun g' hg' => hpre g' (List.mem_cons_of_mem g hg')
    cases hm : checkEntry api g with
    | error e' => rw [hm] at hg; simp [Except.isOk, Except.toBool] at hg
    | ok c =>
      show parseEntries api (g :: (pre ++ f :: rest)) = _
      unfold parseEntries
      rw [hm, ih hrest]

/-- Decoding a buffer into a well-formed two-key root envelope reduces
`parse` to validating the call list. -/
lemma parse_root (api : Api) (jp : List Nat → Option JVal) (buffer : List Nat)
    (nv : JVal) (es : List JVal)
    (hdec : jp (stripDelim buffer) = some (JVal.obj [("name", nv), ("data", JVal.arr es)])) :
    parse api jp buffer = parseEntries api es := by
  unfold parse convert_to_json decodeBody
  rw [hdec]
  rfl

lemma advance_parse_core_error (api : Api) (jp : List Nat → Option JVal)
    (buffer : List Nat) (e : CoreError)
    (hp : parse api jp buffer = .error (.core e)) :
    advance api true jp buffer = .sent [errorMsg e] [] := by
  unfold advance
  rw [hp]
  rfl

lemma advance_parse_ok (api : Api) (jp : List Nat → Option JVal)
    (buffer : List Nat) (calls : List Call)
    (hp : parse api jp buffer = .ok calls) :
    advance api true jp buffer =
      match runCalls calls with
      | .ok (results, inv) => .sent [functionMsg results] inv
      | .error (e, inv) => .sent [errorMsg e] inv := by
  unfold advance
  rw [hp]
  rfl

/-- A call object that carries an `fname` key passes the required-key
check. -/
lemma check_missing_fname (fkvs : List (String × JVal)) (s : String)
    (hfn : fkvs.find? (fun kv => kv.1 == "fname") = some ("fname", JVal.str s)) :
    check_missing whereMsg "Function message" ["fname"] (JVal.obj fkvs) = .ok () := by
  have hpred := List.find?_some hfn
  have hmem := List.mem_of_find?_eq_some hfn
  have hany : pyContains (JVal.obj fkvs) "fname" = true := by
    unfold pyContains
    exact List.any_eq_true.mpr ⟨("fname", JVal.str s), hmem, hpred⟩
  unfold check_missing expect_iterable
  simp [List.find?, hany]

/-- A call object whose `fname` is a string not registered in the api makes
`checkEntry` raise `InvalidMessage "Function not found"`. -/
lemma checkEntry_unknown (api : Api) (fkvs : List (String × JVal)) (s : String)
    (hfn : fkvs.find? (fun kv => kv.1 == "fname") = some ("fname", JVal.str s))
    (hunk : api.find? (fun op => op.name == s) = none) :
    checkEntry api (JVal.obj fkvs) =
      .error (.core (invalidMessage whereMsg ("Function not found: '" ++ s ++ "'"))) := by
  have h1 := check_missing_fname fkvs s hfn
  have h2 : pySubscript (JVal.obj fkvs) "fname" = .ok (JVal.str s) := by
    simp only [pySubscript, hfn]
  have h3 : apiFind api (JVal.str s) = .ok none := by
    simp only [apiFind, hunk]
  simp only [checkEntry, h1, h2, h3, pyStr]

/-- A call object resolving to a registered operation but carrying an
argument key outside the operation's `co_varnames` makes `checkEntry` raise
`InvalidMessage "Unexpected argument"`. -/
lemma checkEntry_badarg (api : Api) (fkvs : List (String × JVal)) (s : String)
    (op : Op) (a : String)
    (hfn : fkvs.find? (fun kv => kv.1 == "fname") = some ("fname", JVal.str s))
    (hop : api.find? (fun o => o.name == s) = some op)
    (harg : ((objKeys (JVal.obj fkvs)).filter (fun x => x != "fname")).find?
        (fun x => !(op.varnames.contains x)) = some a) :
    checkEntry api (JVal.obj fkvs) =
      .error (.core (invalidMessage whereMsg
        ("Unexpected argument in function '" ++ s ++ "': '" ++ a ++ "'"))) := by
  have h1 := check_missing_fname fkvs s hfn
  have h2 : pySubscript (JVal.obj fkvs) "fname" = .ok (JVal.str s) := by
    simp only [pySubscript, hfn]
  have h3 : apiFind api (JVal.str s) = .ok (some op) := by
    simp only [apiFind, hop]
  simp only [checkEntry, h1, h2, h3, pyStr, harg]

end ClientHandler

/-- Claim C1: while the process-wide readiness flag is unset, every
received frame — regardless of its bytes or of what the decoder would make
of them — produces exactly the wait message, with no operation invoked and
no decode or validation attempted. -/
theorem advance_not_ready (api : Api) (jsonParse : List Nat → Option JVal)
    (buffer : List Nat) :
    ClientHandler.advance api false jsonParse buffer = Outcome.sent [waitMsg] [] := rfl

/-- Claim C3: when the accumulated receive buffer's tail equals the fixed
delimiter bytes, the delimiter is stripped before the frame payload is
handed to decoding — the decoder receives exactly the serialized body,
never the delimiter bytes. -/
theorem delim_stripped_before_decode (jsonParse : List Nat → Option JVal)
    (body : List Nat) :
    stripDelim (body ++ delim) = body ∧
    convert_to_json jsonParse (body ++ delim) = decodeBody jsonParse body := by
  have hsuf : delim.isSuffixOf (body ++ delim) = true :=
    List.isSuffixOf_iff_suffix.mpr (List.suffix_append body delim)
  have hstrip : stripDelim (body ++ delim) = body := by
    unfold stripDelim
    rw [if_pos hsuf, List.length_append, Nat.add_sub_cancel, List.take_left']
    rfl
  exact ⟨hstrip, by unfold convert_to_json; rw [hstrip]⟩

/-- Claim C4 (failing input): the frame whose payload decodes to the JSON
root `["name", "data"]` — a wrong container type for the root — is not
rejected with a `ProtocolError` `ErrorMessage`; the membership checks pass
the list and `j_data['data']` raises an uncaught `TypeError` that escapes
the dispatch boundary and kills the connection task. -/
theorem root_list_crashes :
    ClientHandler.advance ClientHandler.api true
      (fun _ => some (JVal.arr [JVal.str "name", JVal.str "data"])) [] =
      Outcome.crash "TypeError" := rfl

/-- Claim C2: when a call of the batch raises a classified operation
failure (a `CoreError` with code and message), the remaining calls are
aborted and exactly one `ErrorMessage` carrying that code and message is
sent — no `FunctionResult` of any earlier call of the batch is sent. -/
theorem op_error_discards_batch (api : Api) (jsonParse : List Nat → Option JVal)
    (buffer : List Nat) (pre : List Call) (c : Call) (post : List Call) (e : CoreError)
    (hp : ClientHandler.parse api jsonParse buffer = .ok (pre ++ c :: post))
    (hpre : ∀ c' ∈ pre, (c'.op.run c'.args).isOk = true)
    (hc : c.op.run c.args = .error e) :
    ClientHandler.advance api true jsonParse buffer =
      Outcome.sent [errorMsg e] (pre.map (fun c' => c'.op.name) ++ [c.op.name]) := by
  rw [ClientHandler.advance_parse_ok api jsonParse buffer _ hp,
      ClientHandler.runCalls_error_after_ok pre c post e hpre hc]

/-- Witness for C2: the spec's example batch `[opA(valid), opB(raises
code=42, "bad gallery id")]` produces exactly the error message and no
result for `opA`. -/
theorem op_error_discards_batch_witness :
    ClientHandler.advance
      [⟨"opA", [], fun _ => .ok messageWorks⟩,
       ⟨"opB", [], fun _ => .error ⟨42, "bad gallery id"⟩⟩] true
      (fun _ => some (JVal.obj [("name", JVal.str "x"),
        ("data", JVal.arr [JVal.obj [("fname", JVal.str "opA")],
                           JVal.obj [("fname", JVal.str "opB")]])])) [] =
      Outcome.sent [errorMsg ⟨42, "bad gallery id"⟩] ["opA", "opB"] := by
  have h := op_error_discards_batch
    [⟨"opA", [], fun _ => .ok messageWorks⟩,
     ⟨"opB", [], fun _ => .error ⟨42, "bad gallery id"⟩⟩]
    (fun _ => some (JVal.obj [("name", JVal.str "x"),
      ("data", JVal.arr [JVal.obj [("fname", JVal.str "opA")],
                         JVal.obj [("fname", JVal.str "opB")]])])) []
    [⟨⟨"opA", [], fun _ => .ok messageWorks⟩, []⟩]
    ⟨⟨"opB", [], fun _ => .error ⟨42, "bad gallery id"⟩⟩, []⟩ []
    ⟨42, "bad gallery id"⟩ rfl
    (by intro c' hc'; rw [List.mem_singleton] at hc'; subst hc'; rfl) rfl
  exact h

/-- Claim C5: a request on a ready server whose first invalid call names an
operation absent from the registry produces exactly one `ErrorMessage`
whose message identifies the unknown name, and no operation is invoked. -/
theorem unknown_function_rejected (api : Api) (jsonParse : List Nat → Option JVal)
    (buffer : List Nat) (nv : JVal) (pre : List JVal)
    (fkvs : List (String × JVal)) (rest : List JVal) (s : String)
    (hdec : jsonParse (stripDelim buffer) =
      some (JVal.obj [("name", nv), ("data", JVal.arr (pre ++ JVal.obj fkvs :: rest))]))
    (hpre : ∀ g ∈ pre, (ClientHandler.checkEntry api g).isOk = true)
    (hfn : fkvs.find? (fun kv => kv.1 == "fname") = some ("fname", JVal.str s))
    (hunk : api.find? (fun op => op.name == s) = none) :
    ClientHandler.advance api true jsonParse buffer =
      Outcome.sent
        [errorMsg (invalidMessage whereMsg ("Function not found: '" ++ s ++ "'"))] [] := by
  have hent := ClientHandler.checkEntry_unknown api fkvs s hfn hunk
  have hp : ClientHandler.parse api jsonParse buffer =
      .error (.core (invalidMessage whereMsg ("Function not found: '" ++ s ++ "'"))) := by
    rw [ClientHandler.parse_root api jsonParse buffer nv _ hdec,
        ClientHandler.parseEntries_error_after_ok api pre (JVal.obj fkvs) rest _ hpre hent]
  exact ClientHandler.advance_parse_core_error api jsonParse buffer _ hp

/-- Witness for C5: a request naming the unregistered operation
`nonexistent` on the real registry. -/
theorem unknown_function_rejected_witness :
    ClientHandler.advance ClientHandler.api true
      (fun _ => some (JVal.obj [("name", JVal.str "x"),
        ("data", JVal.arr [JVal.obj [("fname", JVal.str "nonexistent")]])])) [] =
      Outcome.sent
        [errorMsg (invalidMessage whereMsg "Function not found: 'nonexistent'")] [] := by
  have h := unknown_function_rejected ClientHandler.api
    (fun _ => some (JVal.obj [("name", JVal.str "x"),
      ("data", JVal.arr [JVal.obj [("fname", JVal.str "nonexistent")]])])) []
    (JVal.str "x") [] [("fname", JVal.str "nonexistent")] [] "nonexistent"
    rfl (by intro g hg; cases hg) rfl rfl
  exact h

/-- Claim C6: a call resolving to a registered operation but carrying an
argument key outside the operation's accepted parameter names is rejected
before any invocation: exactly one `ErrorMessage` is sent and no handler
runs. -/
theorem bad_argument_rejected (api : Api) (jsonParse : List Nat → Option JVal)
    (buffer : List Nat) (nv : JVal) (pre : List JVal)
    (fkvs : List (String × JVal)) (rest : List JVal) (s : String) (op : Op) (a : String)
    (hdec : jsonParse (stripDelim buffer) =
      some (JVal.obj [("name", nv), ("data", JVal.arr (pre ++ JVal.obj fkvs :: rest))]))
    (hpre : ∀ g ∈ pre, (ClientHandler.checkEntry api g).isOk = true)
    (hfn : fkvs.find? (fun kv => kv.1 == "fname") = some ("fname", JVal.str s))
    (hop : api.find? (fun o => o.name == s) = some op)
    (harg : ((objKeys (JVal.obj fkvs)).filter (fun x => x != "fname")).find?
        (fun x => !(op.varnames.contains x)) = some a) :
    ClientHandler.advance api true jsonParse buffer =
      Outcome.sent
        [errorMsg (invalidMessage whereMsg
          ("Unexpected argument in function '" ++ s ++ "': '" ++ a ++ "'"))] [] := by
  have hent := ClientHandler.checkEntry_badarg api fkvs s op a hfn hop harg
  have hp : ClientHandler.parse api jsonParse buffer =
      .error (.core (invalidMessage whereMsg
        ("Unexpected argument in function '" ++ s ++ "': '" ++ a ++ "'"))) := by
    rw [ClientHandler.parse_root api jsonParse buffer nv _ hdec,
        ClientHandler.parseEntries_error_after_ok api pre (JVal.obj fkvs) rest _ hpre hent]
  exact ClientHandler.advance_parse_core_error api jsonParse buffer _ hp

/-- Witness for C6: calling `fetch_galleries` with the unaccepted argument
key `bogus` on the real registry. -/
theorem bad_argument_rejected_witness :
    ClientHandler.advance ClientHandler.api true
      (fun _ => some (JVal.obj [("name", JVal.str "x"),
        ("data", JVal.arr [JVal.obj [("fname", JVal.str "fetch_galleries"),
                                     ("bogus", JVal.num 1)]])])) [] =
      Outcome.sent
        [errorMsg (invalidMessage whereMsg
          "Unexpected argument in function 'fetch_galleries': 'bogus'")] [] := by
  have h := bad_argument_rejected ClientHandler.api
    (fun _ => some (JVal.obj [("name", JVal.str "x"),
      ("data", JVal.arr [JVal.obj [("fname", JVal.str "fetch_galleries"),
                                   ("bogus", JVal.num 1)]])])) []
    (JVal.str "x") [] [("fname", JVal.str "fetch_galleries"), ("bogus", JVal.num 1)] []
    "fetch_galleries" fetch_galleries "bogus"
    rfl (by intro g hg; cases hg) rfl rfl rfl
  exact h

/-- Claim C7: a valid batch on a ready server whose calls all succeed
invokes the handlers strictly in the order of the request's `data`
sequence, and the function-list response carries one result per call, in
that same order. -/
theorem batch_invoked_in_order (api : Api) (jsonParse : List Nat → Option JVal)
    (buffer : List Nat) (calls : List Call)
    (hp : ClientHandler.parse api jsonParse buffer = .ok calls)
    (hok : ∀ c ∈ calls, (c.op.run c.args).isOk = true) :
    ClientHandler.advance api true jsonParse buffer =
      Outcome.sent
        [functionMsg (calls.map (fun c => (c.op.name, okValue (c.op.run c.args))))]
        (calls.map (fun c => c.op.name)) := by
  rw [ClientHandler.advance_parse_ok api jsonParse buffer calls hp,
      ClientHandler.runCalls_all_ok calls hok]

/-- Witness for C7: a two-call batch (`fetch_galleries` then
`scan_gallery`) answered in order. -/
theorem batch_invoked_in_order_witness :
    ClientHandler.advance ClientHandler.api true
      (fun _ => some (JVal.obj [("name", JVal.str "x"),
        ("data", JVal.arr [JVal.obj [("fname", JVal.str "fetch_galleries")],
                           JVal.obj [("fname", JVal.str "scan_gallery")]])])) [] =
      Outcome.sent
        [functionMsg [("fetch_galleries", messageWorks), ("scan_gallery", messageWorks)]]
        ["fetch_galleries", "scan_gallery"] := by
  have h := batch_invoked_in_order ClientHandler.api
    (fun _ => some (JVal.obj [("name", JVal.str "x"),
      ("data", JVal.arr [JVal.obj [("fname", JVal.str "fetch_galleries")],
                         JVal.obj [("fname", JVal.str "scan_gallery")]])])) []
    [⟨fetch_galleries, []⟩, ⟨scan_gallery, []⟩] rfl
    (by
      intro c hc
      rw [List.mem_cons] at hc
      rcases hc with h1 | hc
      · subst h1; rfl
      · rw [List.mem_singleton] at hc; subst hc; rfl)
  exact h

/-- Claim C8: the request `{"name": "x", "data": []}` on a ready server
parses to an empty call list, invokes nothing, and is answered with the
serialized empty function list `{"type": "function", "data": []}`. -/
theorem empty_batch_empty_function_list (api : Api) (jsonParse : List Nat → Option JVal)
    (buffer : List Nat)
    (hdec : jsonParse (stripDelim buffer) =
      some (JVal.obj [("name", JVal.str "x"), ("data", JVal.arr [])])) :
    ClientHandler.advance api true jsonParse buffer =
      Outcome.sent [JVal.obj [("type", JVal.str "function"), ("data", JVal.arr [])]] [] := by
  have hp : ClientHandler.parse api jsonParse buffer = .ok [] := by
    rw [ClientHandler.parse_root api jsonParse buffer (JVal.str "x") [] hdec]
    rfl
  rw [ClientHandler.advance_parse_ok api jsonParse buffer [] hp]
  rfl

/-- Witness for C8: the literal spec example against the real registry. -/
theorem empty_batch_empty_function_list_witness :
    ClientHandler.advance ClientHandler.api true
      (fun _ => some (JVal.obj [("name", JVal.str "x"), ("data", JVal.arr [])])) [] =
      Outcome.sent [JVal.obj [("type", JVal.str "function"), ("data", JVal.arr [])]] [] := by
  have h := empty_batch_empty_function_list ClientHandler.api
    (fun _ => some (JVal.obj [("name", JVal.str "x"), ("data", JVal.arr [])])) [] rfl
  exact h

/-- Claim C9: every call of a batch is validated by `parse` before any
handler is invoked by `advance`; hence whenever `parse` fails — on any call
or on the envelope — no handler runs at all, including the handlers of
earlier, individually valid calls. -/
theorem parse_error_invokes_nothing (api : Api) (jsonParse : List Nat → Option JVal)
    (buffer : List Nat) (pe : PErr)
    (hp : ClientHandler.parse api jsonParse buffer = .error pe) :
    (ClientHandler.advance api true jsonParse buffer).invoked = [] := by
  unfold ClientHandler.advance
  rw [hp]
  cases pe with
  | core e => rfl
  | uncaught k => rfl

/-- Witness for C9: a malformed root (a bare number) invokes nothing. -/
theorem parse_error_invokes_nothing_witness :
    (ClientHandler.advance ClientHandler.api true (fun _ => some (JVal.num 5)) []).invoked
      = [] := by
  have h := parse_error_invokes_nothing ClientHandler.api (fun _ => some (JVal.num 5)) []
    (.core (invalidMessage whereMsg "A list/dict was expected, not: 5")) rfl
  exact h

end HappyPanda
